import Mathlib

/-!
# LandCover_3D: the two reactive bindings of `src/javascript/javasc.js`

The file embeds the part of `javasc.js` that computes something: the list of
year options built by the `while` loop (lines 86-101), the initial values of
the two `ValuePicker`s (lines 52-72 and 103-113), and the two
`reactiveUtils.watch` callbacks (lines 77-84 and 117-127).

The callbacks and the loop call the JavaScript `Date` built-ins
(`new Date(y, m, d)`, `new Date(number)`, `getTime`, `getFullYear`,
`setFullYear`, the relational operator on two dates).  Those are embedded
following ECMA-262, section "Date Objects": a time value is an integral
number of milliseconds since the epoch or `NaN`, here `Option Int` with
`none` for `NaN`.  All time values that are not `NaN` are at most
`8.64e15 < 2^53` in absolute value, so the double arithmetic of the
language is exact on them and `Int` models it.

The local time zone of the browser is a parameter (`TimeZone`): its offset
may depend on the instant.  Statements about the new-year timestamps assume
that local midnight of 1 January exists in the zone for 2017..2022
(`TimeZone.RegularYears`), which holds in every zone with a constant offset
(`utc_regularYears`, `brt_regularYears`).

`reactiveUtils.watch` itself belongs to the mapping SDK and is not embedded:
the two callbacks are functions on the state, run with the array the SDK
passes them.
-/

namespace LandCover

/-! ## ECMA-262 day and year arithmetic -/

/-- Milliseconds in a day (ECMA-262 `msPerDay`). -/
def msPerDay : Int := 86400000

/-- The day number of a time value: `floor(t / msPerDay)`. -/
def Day (t : Int) : Int := t / msPerDay

/-- The milliseconds since the start of the day: `t modulo msPerDay`. -/
def TimeWithinDay (t : Int) : Int := t % msPerDay

/-- Number of days of year `y` in the proleptic Gregorian calendar. -/
def DaysInYear (y : Int) : Int :=
  if y % 4 ≠ 0 then 365
  else if y % 100 ≠ 0 then 366
  else if y % 400 ≠ 0 then 365
  else 366

/-- Day number of the first day of year `y`. -/
def DayFromYear (y : Int) : Int :=
  365 * (y - 1970) + (y - 1969) / 4 - (y - 1901) / 100 + (y - 1601) / 400

/-- Time value of the start of year `y`. -/
def TimeFromYear (y : Int) : Int := msPerDay * DayFromYear y

/-- The year of a time value: the largest `y` with `TimeFromYear y ≤ t`
(see `YearFromTime_spec` and `YearFromTime_unique`).  It is computed from
the estimate `1970 + floor(400 * day / 146097)`, which is off by at most
one year. -/
def YearFromTime (t : Int) : Int :=
  let d := Day t
  let y := 1970 + (400 * d) / 146097
  if d < DayFromYear y then y - 1
  else if DayFromYear (y + 1) ≤ d then y + 1
  else y

/-- One in a leap year and zero otherwise (ECMA-262 `InLeapYear`). -/
def InLeapYear (t : Int) : Int :=
  if DaysInYear (YearFromTime t) = 366 then 1 else 0

/-- Zero-based day of the year. -/
def DayWithinYear (t : Int) : Int := Day t - DayFromYear (YearFromTime t)

/-- Month number, 0 for January to 11 for December. -/
def MonthFromTime (t : Int) : Int :=
  let d := DayWithinYear t
  let l := InLeapYear t
  if d < 31 then 0
  else if d < 59 + l then 1
  else if d < 90 + l then 2
  else if d < 120 + l then 3
  else if d < 151 + l then 4
  else if d < 181 + l then 5
  else if d < 212 + l then 6
  else if d < 243 + l then 7
  else if d < 273 + l then 8
  else if d < 304 + l then 9
  else if d < 334 + l then 10
  else 11

/-- Day of the month, from 1. -/
def DateFromTime (t : Int) : Int :=
  let d := DayWithinYear t
  let l := InLeapYear t
  let m := MonthFromTime t
  if m = 0 then d + 1
  else if m = 1 then d - 30
  else if m = 2 then d - 58 - l
  else if m = 3 then d - 89 - l
  else if m = 4 then d - 119 - l
  else if m = 5 then d - 150 - l
  else if m = 6 then d - 180 - l
  else if m = 7 then d - 211 - l
  else if m = 8 then d - 242 - l
  else if m = 9 then d - 272 - l
  else if m = 10 then d - 303 - l
  else d - 333 - l

/-- Days of the year before the first of month `mn` (0..11); `l` is one in
a leap year. -/
def daysBeforeMonth (l : Int) (mn : Int) : Int :=
  if mn = 0 then 0
  else if mn = 1 then 31
  else if mn = 2 then 59 + l
  else if mn = 3 then 90 + l
  else if mn = 4 then 120 + l
  else if mn = 5 then 151 + l
  else if mn = 6 then 181 + l
  else if mn = 7 then 212 + l
  else if mn = 8 then 243 + l
  else if mn = 9 then 273 + l
  else if mn = 10 then 304 + l
  else 334 + l

/-- ECMA-262 `MakeTime(hour, min, sec, ms)`. -/
def MakeTime (hour min sec ms : Int) : Int :=
  hour * 3600000 + min * 60000 + sec * 1000 + ms

/-- ECMA-262 `MakeDay(year, month, date)`: with `ym = year + floor(month/12)`
and `mn = month modulo 12`, the day number of the first of month `mn` of year
`ym` (see `MakeDay_first`), plus `date - 1`. -/
def MakeDay (year month date : Int) : Int :=
  let ym := year + month / 12
  let mn := month % 12
  DayFromYear ym + daysBeforeMonth (if DaysInYear ym = 366 then 1 else 0) mn + date - 1

/-- ECMA-262 `MakeDate(day, time)`. -/
def MakeDate (day time : Int) : Int := day * msPerDay + time

/-- A time value: `none` is `NaN`. -/
abbrev TimeValue := Option Int

/-- ECMA-262 `TimeClip`: `NaN` beyond `8.64e15` milliseconds from the epoch. -/
def TimeClip (t : Int) : TimeValue :=
  if 8640000000000000 < |t| then none else some t

/-! ## The local time zone and the `Date` built-ins used by `javasc.js` -/

/-- The host's local time zone, as far as ECMA-262 sees it: the offset of
local time from UTC in milliseconds, asked either at a UTC time value
(`LocalTZA(t, true)`) or at a local time value (`LocalTZA(t, false)`).  Both
may vary with their argument (daylight saving, changes of the zone's rules);
the local offset is less than a day in absolute value. -/
structure TimeZone where
  utcOffset : Int → Int
  localOffset : Int → Int
  localOffset_lt : ∀ t, -msPerDay < localOffset t ∧ localOffset t < msPerDay

/-- A zone with a constant offset, such as UTC (`0`). -/
def TimeZone.fixed (off : Int) (h : -msPerDay < off ∧ off < msPerDay) : TimeZone where
  utcOffset := fun _ => off
  localOffset := fun _ => off
  localOffset_lt := fun _ => h

/-- The UTC zone. -/
def utc : TimeZone := TimeZone.fixed 0 (by decide)

/-- A zone three hours behind UTC all year (Brasilia time since 2019). -/
def brt : TimeZone := TimeZone.fixed (-10800000) (by decide)

/-- ECMA-262 `LocalTime(t)`. -/
def LocalTime (tz : TimeZone) (t : Int) : Int := t + tz.utcOffset t

/-- ECMA-262 `UTC(t)`. -/
def UTC (tz : TimeZone) (t : Int) : Int := t - tz.localOffset t

/-- The local time `x` exists in the zone and converts back to itself: it is
not skipped by a forward transition (and, where repeated, it is the earlier
of its two instants). -/
def TimeZone.Regular (tz : TimeZone) (x : Int) : Prop :=
  tz.utcOffset (x - tz.localOffset x) = tz.localOffset x

/-- A JavaScript Number as far as this program handles one: an integer or
`NaN` (`none`).  `undefined`, which only reaches `new Date(...)`, converts to
`NaN` there and is written `none` as well. -/
abbrev Num := Option Int

/-- A `Date` object: its `[[DateValue]]` internal slot. -/
structure Date where
  value : TimeValue
  deriving DecidableEq

/-- The source's `new Date(year, month, date)`, all three arguments integers;
hours, minutes, seconds and milliseconds default to zero. -/
def Date.ofComponents (tz : TimeZone) (year month date : Int) : Date :=
  let yr := if 0 ≤ year ∧ year ≤ 99 then 1900 + year else year
  let finalDate := MakeDate (MakeDay yr month date) (MakeTime 0 0 0 0)
  ⟨TimeClip (UTC tz finalDate)⟩

/-- The source's `new Date(value)` with a Number argument: `TimeClip(value)`. -/
def Date.ofValue (value : Num) : Date := ⟨value.bind TimeClip⟩

/-- `Date.prototype.getTime`. -/
def Date.getTime (d : Date) : Num := d.value

/-- `Date.prototype.getFullYear`. -/
def Date.getFullYear (tz : TimeZone) (d : Date) : Num :=
  d.value.map fun t => YearFromTime (LocalTime tz t)

/-- `Date.prototype.setFullYear(year)` with one argument.  The first
component is the object after the call (it is changed in place), the second
the number the call returns. -/
def Date.setFullYear (tz : TimeZone) (d : Date) (year : Num) : Date × Num :=
  let t : Int := match d.value with
    | none => 0
    | some tv => LocalTime tz tv
  let u : TimeValue := match year with
    | none => none
    | some y =>
      let newDate := MakeDate (MakeDay y (MonthFromTime t) (DateFromTime t)) (TimeWithinDay t)
      TimeClip (UTC tz newDate)
  (⟨u⟩, u)

/-- The relational `a <= b` on two `Date` objects: both convert to their time
values, and any comparison with `NaN` is false. -/
def Date.le (a b : Date) : Bool :=
  match a.value, b.value with
  | some x, some y => decide (x ≤ y)
  | _, _ => false

/-- The number `x + 1` of the source. -/
def Num.succ (x : Num) : Num := x.map fun n => n + 1

/-- Number to String conversion, as in `"..." + number`. -/
def Num.toStr : Num → String
  | none => "NaN"
  | some n => toString n

/-- The element `values[0]` of an array of numbers, read as a Number by
`new Date`: `undefined` (empty array) becomes `NaN`. -/
def index0 (values : List Num) : Num := values.head?.join

/-! ## The program state -/

/-- An entry of `layer.rasterFunctionInfos`; only its `name` is read. -/
structure RasterFunctionInfo where
  name : String
  deriving DecidableEq

/-- An item of the combobox component (lines 54-57). -/
structure ComboboxItem where
  value : String
  label : String
  deriving DecidableEq

/-- An item of the label component (lines 96-99). -/
structure LabelItem where
  value : Num
  label : String
  deriving DecidableEq

/-- The object assigned to `layer.rasterFunction` (lines 80-82);
`functionName` is `none` when `values[0]` is `undefined`. -/
structure RasterFunction where
  functionName : Option String
  deriving DecidableEq

/-- The object assigned to `view.timeExtent` (lines 122-125). -/
structure TimeExtent where
  start : Date
  end_ : Date
  deriving DecidableEq

/-- An assignment to a property of the map rendering objects. -/
inductive Update where
  | rasterFunction (r : RasterFunction)
  | timeExtent (e : TimeExtent)
  deriving DecidableEq

/-- The `ImageryLayer`: `rasterFunction` is `none` until it is assigned. -/
structure Layer where
  rasterFunctionInfos : List RasterFunctionInfo
  rasterFunction : Option RasterFunction
  deriving DecidableEq

/-- The `SceneView`: `timeExtent` is `none` until it is assigned. -/
structure View where
  timeExtent : Option TimeExtent
  deriving DecidableEq

/-- A `ValuePicker` widget: its component's items and its `values`. -/
structure ValuePicker (ι α : Type) where
  items : List ι
  values : List α
  deriving DecidableEq

/-- The objects the program works on.  `startDate` and `endDate` are the two
`Date` objects of lines 88-89 (`currentDate` is another name of the object
`startDate`); `updates` records every assignment the watchers make to
`layer.rasterFunction` and `view.timeExtent`, oldest first. -/
structure App where
  layer : Layer
  view : View
  rasterFunctionPicker : ValuePicker ComboboxItem String
  valuePickerTime : ValuePicker LabelItem Num
  startDate : Date
  endDate : Date
  updates : List Update
  deriving DecidableEq

/-- How the set-up code can stop without a state: a `TypeError` on reading a
property of `undefined`, or the loop still running when the fuel is spent. -/
inductive Failure where
  | typeError
  | outOfFuel
  deriving DecidableEq

/-! ## Set-up (lines 52-113) -/

/-- Lines 52-58: one combobox item per raster-function info, in order. -/
def comboboxItems (infos : List RasterFunctionInfo) : List ComboboxItem :=
  infos.foldl (fun items rf => items ++ [{ value := rf.name, label := rf.name }]) []

/-- Lines 95-101, the `while` loop.  `currentDate` is the object being
advanced, `items` the array `labelComponentForDates` so far.  The result is
the final array and the final state of the object. -/
def yearLoop (tz : TimeZone) : Nat → Date → Date → List LabelItem → Option (List LabelItem × Date)
  | 0, _, _, _ => none
  | fuel + 1, currentDate, endDate, items =>
    if Date.le currentDate endDate then
      let items1 := items ++ [{ value := currentDate.getTime,
                                label := "Land cover in " ++ (currentDate.getFullYear tz).toStr }]
      let currentDate1 := (currentDate.setFullYear tz (currentDate.getFullYear tz).succ).1
      yearLoop tz fuel currentDate1 endDate items1
    else some (items, currentDate)

/-- Lines 88-101: the label items for the dates. -/
def labelComponentForDates (tz : TimeZone) (fuel : Nat) : Option (List LabelItem × Date) :=
  let startDate := Date.ofComponents tz 2017 0 1
  let endDate := Date.ofComponents tz 2022 0 1
  yearLoop tz fuel startDate endDate []

/-- Lines 52-113: the state once both pickers are built.  Reading
`comboboxItems[0].label` or `labelComponentForDates[0].value` of an empty
array throws. -/
def setup (tz : TimeZone) (fuel : Nat) (infos : List RasterFunctionInfo) : Except Failure App :=
  let combo := comboboxItems infos
  match combo.head? with
  | none => .error .typeError
  | some c0 =>
    match labelComponentForDates tz fuel with
    | none => .error .outOfFuel
    | some (dates, startDate) =>
      match dates.head? with
      | none => .error .typeError
      | some d0 =>
        .ok { layer := { rasterFunctionInfos := infos, rasterFunction := none }
              view := { timeExtent := none }
              rasterFunctionPicker := { items := combo, values := [c0.label] }
              valuePickerTime := { items := dates, values := [d0.value] }
              startDate := startDate
              endDate := Date.ofComponents tz 2022 0 1
              updates := [] }

/-! ## The two watcher callbacks -/

/-- Lines 79-83: the callback ignores its argument and reads the picker. -/
def rasterFunctionWatcher (_values : List String) (s : App) : App :=
  let rf : RasterFunction := { functionName := s.rasterFunctionPicker.values.head? }
  { s with layer := { s.layer with rasterFunction := some rf }
           updates := s.updates ++ [Update.rasterFunction rf] }

/-- Lines 120-121: the callback's local `startDate` after the in-place
`setFullYear`, and the number `endDate` that call returned. -/
def timeExtentLocals (tz : TimeZone) (values : List Num) : Date × Num :=
  let startDate := Date.ofValue (index0 values)
  startDate.setFullYear tz (startDate.getFullYear tz).succ

/-- Lines 120-125: the object literal assigned to `view.timeExtent`. -/
def watchedTimeExtent (tz : TimeZone) (values : List Num) : TimeExtent :=
  let endDate := (timeExtentLocals tz values).2
  { start := Date.ofValue (index0 values), end_ := Date.ofValue endDate }

/-- Lines 119-126: the time-extent callback, run with the array `values`. -/
def timeExtentWatcher (tz : TimeZone) (values : List Num) (s : App) : App :=
  let ext := watchedTimeExtent tz values
  { s with view := { s.view with timeExtent := some ext }
           updates := s.updates ++ [Update.timeExtent ext] }

/-! ## Names for the statements -/

/-- Local midnight of 1 January of year `yr`, as a local time value. -/
def localJan1 (yr : Int) : Int := MakeDate (MakeDay yr 0 1) (MakeTime 0 0 0 0)

/-- The timestamp of 1 January of `yr`: `new Date(yr, 0, 1).getTime()`. -/
def jan1 (tz : TimeZone) (yr : Int) : Num := (Date.ofComponents tz yr 0 1).getTime

/-- Local midnight of 1 January exists in the zone for each of 2017..2022. -/
def TimeZone.RegularYears (tz : TimeZone) : Prop :=
  ∀ yr : Int, 2017 ≤ yr → yr ≤ 2022 → tz.Regular (localJan1 yr)

/-- The largest time value in absolute value (`8.64e15`). -/
def maxTime : Int := 8640000000000000

/-- The integer `v` is a time value. -/
def IsTimeValue (v : Int) : Prop := -maxTime ≤ v ∧ v ≤ maxTime

/-- The time value of local midnight of 1 January of `yr`. -/
def jan1Time (tz : TimeZone) (yr : Int) : Int := UTC tz (localJan1 yr)

/-- The label item the loop pushes for year `yr`. -/
def yearItem (tz : TimeZone) (yr : Int) : LabelItem :=
  { value := some (jan1Time tz yr), label := "Land cover in " ++ toString yr }

/-- The array `labelComponentForDates` the loop returns (empty if the loop
has not finished within the fuel). -/
def yearOptions (tz : TimeZone) (fuel : Nat) : List LabelItem :=
  match labelComponentForDates tz fuel with
  | some r => r.1
  | none => []

/-- The local time of 1 March of the year after the year of the local time
`t`, at the time of day of `t`. -/
def marchFirstAfter (t : Int) : Int :=
  MakeDate (MakeDay (YearFromTime t + 1) 2 1) (TimeWithinDay t)

/-- The state after set-up in UTC with the raster functions `None` and
`Trees` (see `setup_demoApp`). -/
def demoApp : App :=
  { layer := { rasterFunctionInfos := [⟨"None"⟩, ⟨"Trees"⟩], rasterFunction := none }
    view := { timeExtent := none }
    rasterFunctionPicker :=
      { items := [⟨"None", "None"⟩, ⟨"Trees", "Trees"⟩], values := ["None"] }
    valuePickerTime :=
      { items := [⟨some 1483228800000, "Land cover in 2017"⟩,
                  ⟨some 1514764800000, "Land cover in 2018"⟩,
                  ⟨some 1546300800000, "Land cover in 2019"⟩,
                  ⟨some 1577836800000, "Land cover in 2020"⟩,
                  ⟨some 1609459200000, "Land cover in 2021"⟩,
                  ⟨some 1640995200000, "Land cover in 2022"⟩]
        values := [some 1483228800000] }
    startDate := ⟨some 1672531200000⟩
    endDate := ⟨some 1640995200000⟩
    updates := [] }

/-! ## The calendar functions meet their ECMA-262 descriptions -/

theorem DayFromYear_succ (y : Int) : DayFromYear (y + 1) = DayFromYear y + DaysInYear y := by
  unfold DayFromYear DaysInYear
  split_ifs <;> omega

theorem DaysInYear_bounds (y : Int) : 365 ≤ DaysInYear y ∧ DaysInYear y ≤ 366 := by
  unfold DaysInYear
  split_ifs <;> omega

theorem DayFromYear_lt {a b : Int} (h : a < b) : DayFromYear a < DayFromYear b := by
  unfold DayFromYear
  omega

theorem yearEstimate (d : Int) :
    DayFromYear (1970 + (400 * d) / 146097 - 1) ≤ d ∧
      d < DayFromYear (1970 + (400 * d) / 146097 + 2) := by
  generalize hy : 1970 + (400 * d) / 146097 = y
  have hd : 146097 * (y - 1970) ≤ 400 * d ∧ 400 * d < 146097 * (y - 1970) + 146097 := by
    omega
  unfold DayFromYear
  omega

/-- The year computed contains the day. -/
theorem YearFromTime_spec (t : Int) :
    DayFromYear (YearFromTime t) ≤ Day t ∧ Day t < DayFromYear (YearFromTime t + 1) := by
  unfold YearFromTime
  generalize Day t = d
  have h := yearEstimate d
  simp only
  generalize 1970 + (400 * d) / 146097 = y at h ⊢
  have e1 : y - 1 + 1 = y := by ring
  have e2 : y + 1 + 1 = y + 2 := by ring
  split_ifs with h1 h2
  · rw [e1]; exact ⟨h.1, h1⟩
  · rw [e2]; exact ⟨h2, h.2⟩
  · exact ⟨not_lt.mp h1, not_le.mp h2⟩

/-- Only one year contains the day. -/
theorem YearFromTime_unique {t y : Int} (h1 : DayFromYear y ≤ Day t)
    (h2 : Day t < DayFromYear (y + 1)) : YearFromTime t = y := by
  have h := YearFromTime_spec t
  by_contra hne
  rcases lt_or_gt_of_ne hne with hlt | hgt
  · have h0 : YearFromTime t + 1 ≤ y := hlt
    rcases h0.lt_or_eq with h3 | h3
    · have := DayFromYear_lt h3; omega
    · rw [h3] at h; omega
  · have h0 : y + 1 ≤ YearFromTime t := hgt
    rcases h0.lt_or_eq with h3 | h3
    · have := DayFromYear_lt h3; omega
    · rw [← h3] at h; omega

/-- `YearFromTime t` is the largest year whose start is not after `t`. -/
theorem YearFromTime_largest (t y : Int) :
    TimeFromYear y ≤ t ↔ y ≤ YearFromTime t := by
  have h := YearFromTime_spec t
  have hd : DayFromYear y ≤ Day t ↔ TimeFromYear y ≤ t := by
    unfold TimeFromYear Day msPerDay
    omega
  rw [← hd]
  constructor
  · intro h1
    by_contra hlt
    have h0 : YearFromTime t + 1 ≤ y := by omega
    rcases h0.lt_or_eq with h3 | h3
    · have := DayFromYear_lt h3; omega
    · rw [h3] at h; omega
  · intro h1
    rcases h1.lt_or_eq with h3 | h3
    · have := DayFromYear_lt h3; omega
    · rw [h3]; exact h.1

theorem TimeWithinDay_bounds (t : Int) : 0 ≤ TimeWithinDay t ∧ TimeWithinDay t < msPerDay := by
  unfold TimeWithinDay msPerDay
  omega

theorem Day_MakeDate {d tod : Int} (h0 : 0 ≤ tod) (h1 : tod < msPerDay) :
    Day (MakeDate d tod) = d := by
  unfold Day MakeDate msPerDay at *
  omega

theorem TimeWithinDay_MakeDate {d tod : Int} (h0 : 0 ≤ tod) (h1 : tod < msPerDay) :
    TimeWithinDay (MakeDate d tod) = tod := by
  unfold TimeWithinDay MakeDate msPerDay at *
  omega

/-- A time on day `k` of year `y` has year `y` and day-within-year `k`. -/
theorem year_of_day {t y k : Int} (hd : Day t = DayFromYear y + k) (h0 : 0 ≤ k)
    (h1 : k < DaysInYear y) :
    YearFromTime t = y ∧ DayWithinYear t = k ∧
      InLeapYear t = (if DaysInYear y = 366 then 1 else 0) := by
  have hy : YearFromTime t = y := by
    apply YearFromTime_unique
    · omega
    · rw [DayFromYear_succ]; omega
  refine ⟨hy, ?_, ?_⟩
  · unfold DayWithinYear
    rw [hy]; omega
  · unfold InLeapYear
    rw [hy]

/-- The day `MakeDay year month 1` is the first of month `month modulo 12`
of year `year + floor(month / 12)`, as ECMA-262 asks of `MakeDay`. -/
theorem MakeDay_first (year month : Int) :
    YearFromTime (MakeDate (MakeDay year month 1) 0) = year + month / 12 ∧
      MonthFromTime (MakeDate (MakeDay year month 1) 0) = month % 12 ∧
      DateFromTime (MakeDate (MakeDay year month 1) 0) = 1 := by
  have hday : Day (MakeDate (MakeDay year month 1) 0) = MakeDay year month 1 :=
    Day_MakeDate (le_refl 0) (by decide)
  generalize MakeDate (MakeDay year month 1) 0 = t at hday ⊢
  unfold MakeDay at hday
  simp only at hday
  have hm : 0 ≤ month % 12 ∧ month % 12 < 12 := by omega
  generalize month % 12 = mn at hm hday
  generalize year + month / 12 = y at hday
  have hb := DaysInYear_bounds y
  have hl : (if DaysInYear y = 366 then (1 : Int) else 0) = 0 ∧ DaysInYear y = 365 ∨
      (if DaysInYear y = 366 then (1 : Int) else 0) = 1 ∧ DaysInYear y = 366 := by
    split_ifs with h
    · right; exact ⟨rfl, h⟩
    · left; exact ⟨rfl, by omega⟩
  generalize hle : (if DaysInYear y = 366 then (1 : Int) else 0) = l at hl hday
  have hmn : mn = 0 ∨ mn = 1 ∨ mn = 2 ∨ mn = 3 ∨ mn = 4 ∨ mn = 5 ∨ mn = 6 ∨ mn = 7 ∨
      mn = 8 ∨ mn = 9 ∨ mn = 10 ∨ mn = 11 := by omega
  have hd : Day t = DayFromYear y + daysBeforeMonth l mn := by omega
  have hk : 0 ≤ daysBeforeMonth l mn ∧ daysBeforeMonth l mn < DaysInYear y := by
    rcases hmn with h | h | h | h | h | h | h | h | h | h | h | h <;> subst h <;>
      simp only [daysBeforeMonth] <;> norm_num <;> omega
  obtain ⟨h1, h2, h3⟩ := year_of_day hd hk.1 hk.2
  rw [hle] at h3
  have hmo : MonthFromTime t = mn := by
    unfold MonthFromTime
    rw [h2, h3]
    rcases hmn with h | h | h | h | h | h | h | h | h | h | h | h <;> subst h <;>
      simp only [daysBeforeMonth] <;> norm_num <;> omega
  refine ⟨h1, hmo, ?_⟩
  unfold DateFromTime
  rw [hmo, h2, h3]
  rcases hmn with h | h | h | h | h | h | h | h | h | h | h | h <;> subst h <;>
    simp only [daysBeforeMonth] <;> norm_num <;> omega

/-- Midnight of 1 January of `yr` is in year `yr`, month 0, date 1. -/
theorem localJan1_calendar (yr : Int) :
    YearFromTime (localJan1 yr) = yr ∧ MonthFromTime (localJan1 yr) = 0 ∧
      DateFromTime (localJan1 yr) = 1 ∧ TimeWithinDay (localJan1 yr) = 0 := by
  have h := MakeDay_first yr 0
  have e : localJan1 yr = MakeDate (MakeDay yr 0 1) 0 := rfl
  rw [e]
  refine ⟨by simpa using h.1, by simpa using h.2.1, h.2.2, ?_⟩
  exact TimeWithinDay_MakeDate (le_refl 0) (by decide)

/-- The day number of 1 January. -/
theorem localJan1_eq (yr : Int) : localJan1 yr = DayFromYear yr * msPerDay := by
  unfold localJan1 MakeDate MakeDay MakeTime daysBeforeMonth
  norm_num

/-- A leap day is day 59 of a leap year. -/
theorem leapDay_day {t : Int} (hm : MonthFromTime t = 1) (hd : DateFromTime t = 29) :
    DayWithinYear t = 59 ∧ DaysInYear (YearFromTime t) = 366 := by
  unfold DateFromTime at hd
  rw [hm] at hd
  simp only at hd
  norm_num at hd
  unfold MonthFromTime at hm
  have hl : InLeapYear t = (if DaysInYear (YearFromTime t) = 366 then 1 else 0) := rfl
  have hd59 : DayWithinYear t = 59 := by omega
  rw [hd59] at hm
  refine ⟨hd59, ?_⟩
  by_contra hne
  rw [hl, if_neg hne] at hm
  norm_num at hm

/-- The year after a leap year has 365 days. -/
theorem DaysInYear_after_leap {y : Int} (h : DaysInYear y = 366) : DaysInYear (y + 1) = 365 := by
  unfold DaysInYear at *
  split_ifs at h ⊢ <;> omega

/-- One calendar year after a leap day: `setFullYear` builds 1 March. -/
theorem leapDay_next {t : Int} (hm : MonthFromTime t = 1) (hd : DateFromTime t = 29) :
    YearFromTime (MakeDate (MakeDay (YearFromTime t + 1) 1 29) (TimeWithinDay t))
        = YearFromTime t + 1 ∧
      MonthFromTime (MakeDate (MakeDay (YearFromTime t + 1) 1 29) (TimeWithinDay t)) = 2 ∧
      DateFromTime (MakeDate (MakeDay (YearFromTime t + 1) 1 29) (TimeWithinDay t)) = 1 ∧
      TimeWithinDay (MakeDate (MakeDay (YearFromTime t + 1) 1 29) (TimeWithinDay t))
        = TimeWithinDay t := by
  obtain ⟨_, hleap⟩ := leapDay_day hm hd
  have h365 := DaysInYear_after_leap hleap
  have hb := TimeWithinDay_bounds t
  have hday := @Day_MakeDate (MakeDay (YearFromTime t + 1) 1 29) (TimeWithinDay t) hb.1 hb.2
  have htod := @TimeWithinDay_MakeDate (MakeDay (YearFromTime t + 1) 1 29) (TimeWithinDay t)
    hb.1 hb.2
  have hmk : MakeDay (YearFromTime t + 1) 1 29 = DayFromYear (YearFromTime t + 1) + 59 := by
    unfold MakeDay daysBeforeMonth
    norm_num
    omega
  rw [hmk] at hday htod ⊢
  generalize MakeDate (DayFromYear (YearFromTime t + 1) + 59) (TimeWithinDay t) = x at hday htod ⊢
  obtain ⟨h1, h2, h3⟩ := year_of_day hday (by norm_num) (by omega)
  rw [h365] at h3
  norm_num at h3
  have hmo : MonthFromTime x = 2 := by
    unfold MonthFromTime
    rw [h2, h3]
    norm_num
  refine ⟨h1, hmo, ?_, htod⟩
  unfold DateFromTime
  rw [hmo, h2, h3]
  norm_num

/-! ## The `Date` built-ins at the start of a year -/

theorem TimeClip_of_bounds {t : Int} (h : IsTimeValue t) : TimeClip t = some t := by
  unfold IsTimeValue maxTime at h
  unfold TimeClip
  rw [if_neg]
  rw [not_lt, abs_le]
  exact h

theorem TimeClip_none {t : Int} (h : maxTime < t) : TimeClip t = none := by
  unfold maxTime at h
  unfold TimeClip
  rw [if_pos]
  exact lt_of_lt_of_le h (le_abs_self t)

theorem LocalTime_UTC {tz : TimeZone} {x : Int} (h : tz.Regular x) :
    LocalTime tz (UTC tz x) = x := by
  unfold TimeZone.Regular at h
  unfold LocalTime UTC
  rw [h]
  omega

theorem jan1Time_bounds (tz : TimeZone) {yr : Int} (h0 : 2016 ≤ yr) (h1 : yr ≤ 2023) :
    IsTimeValue (jan1Time tz yr) := by
  have hb := tz.localOffset_lt (localJan1 yr)
  unfold IsTimeValue maxTime jan1Time UTC
  rw [localJan1_eq] at hb ⊢
  unfold msPerDay DayFromYear at *
  omega

theorem jan1Time_lt (tz : TimeZone) {a b : Int} (h : a < b) : jan1Time tz a < jan1Time tz b := by
  have ha := tz.localOffset_lt (localJan1 a)
  have hb := tz.localOffset_lt (localJan1 b)
  unfold jan1Time UTC
  simp only [localJan1_eq] at ha hb ⊢
  unfold msPerDay DayFromYear at *
  omega

theorem ofComponents_jan1 (tz : TimeZone) {yr : Int} (h0 : 2016 ≤ yr) (h1 : yr ≤ 2023) :
    Date.ofComponents tz yr 0 1 = ⟨some (jan1Time tz yr)⟩ := by
  have hb := TimeClip_of_bounds (jan1Time_bounds tz h0 h1)
  unfold Date.ofComponents
  rw [if_neg (by omega)]
  exact congrArg Date.mk hb

theorem jan1_eq (tz : TimeZone) {yr : Int} (h0 : 2016 ≤ yr) (h1 : yr ≤ 2023) :
    jan1 tz yr = some (jan1Time tz yr) := by
  unfold jan1 Date.getTime
  rw [ofComponents_jan1 tz h0 h1]

theorem getFullYear_jan1 {tz : TimeZone} {yr : Int} (h : tz.Regular (localJan1 yr)) :
    Date.getFullYear tz ⟨some (jan1Time tz yr)⟩ = some yr := by
  unfold Date.getFullYear jan1Time
  simp only [Option.map_some']
  rw [LocalTime_UTC h, (localJan1_calendar yr).1]

theorem setFullYear_jan1 {tz : TimeZone} {yr : Int} (h : tz.Regular (localJan1 yr))
    (h0 : 2016 ≤ yr) (h1 : yr ≤ 2022) :
    Date.setFullYear tz ⟨some (jan1Time tz yr)⟩ (some (yr + 1)) =
      (⟨some (jan1Time tz (yr + 1))⟩, some (jan1Time tz (yr + 1))) := by
  have hb := TimeClip_of_bounds (jan1Time_bounds tz (show 2016 ≤ yr + 1 by omega)
    (show yr + 1 ≤ 2023 by omega))
  obtain ⟨_, c2, c3, c4⟩ := localJan1_calendar yr
  unfold Date.setFullYear
  simp only
  have e : LocalTime tz (jan1Time tz yr) = localJan1 yr := LocalTime_UTC h
  rw [e, c2, c3, c4]
  have e2 : TimeClip (UTC tz (MakeDate (MakeDay (yr + 1) 0 1) 0)) = some (jan1Time tz (yr + 1)) :=
    hb
  rw [e2]

theorem yearLoop_step {tz : TimeZone} {yr : Int} (h : tz.Regular (localJan1 yr))
    (h0 : 2017 ≤ yr) (h1 : yr ≤ 2022) (fuel : Nat) (items : List LabelItem) :
    yearLoop tz (fuel + 1) ⟨some (jan1Time tz yr)⟩ ⟨some (jan1Time tz 2022)⟩ items =
      yearLoop tz fuel ⟨some (jan1Time tz (yr + 1))⟩ ⟨some (jan1Time tz 2022)⟩
        (items ++ [yearItem tz yr]) := by
  have hle : Date.le ⟨some (jan1Time tz yr)⟩ ⟨some (jan1Time tz 2022)⟩ = true := by
    unfold Date.le
    simp only [decide_eq_true_eq]
    rcases h1.lt_or_eq with h2 | h2
    · exact le_of_lt (jan1Time_lt tz h2)
    · rw [h2]
  rw [yearLoop, if_pos hle, getFullYear_jan1 h]
  simp only [Num.succ, Option.map_some']
  rw [setFullYear_jan1 h (by omega) h1]
  rfl

theorem yearLoop_exit (tz : TimeZone) (fuel : Nat) (items : List LabelItem) :
    yearLoop tz (fuel + 1) ⟨some (jan1Time tz 2023)⟩ ⟨some (jan1Time tz 2022)⟩ items =
      some (items, ⟨some (jan1Time tz 2023)⟩) := by
  have hle : Date.le ⟨some (jan1Time tz 2023)⟩ ⟨some (jan1Time tz 2022)⟩ = false := by
    unfold Date.le
    simp only [decide_eq_false_iff_not, not_le]
    exact jan1Time_lt tz (by decide)
  rw [yearLoop, hle]
  rfl

/-- The loop of lines 95-101 run with enough fuel. -/
theorem labelComponentForDates_eq {tz : TimeZone} (hreg : tz.RegularYears) (n : Nat) :
    labelComponentForDates tz (n + 7) =
      some ([yearItem tz 2017, yearItem tz 2018, yearItem tz 2019, yearItem tz 2020,
             yearItem tz 2021, yearItem tz 2022], ⟨some (jan1Time tz 2023)⟩) := by
  unfold labelComponentForDates
  simp only
  rw [ofComponents_jan1 tz (by decide) (by decide), ofComponents_jan1 tz (by decide) (by decide)]
  rw [yearLoop_step (hreg 2017 (by decide) (by decide)) (by decide) (by decide),
    show (2017 : Int) + 1 = 2018 from rfl,
    yearLoop_step (hreg 2018 (by decide) (by decide)) (by decide) (by decide),
    show (2018 : Int) + 1 = 2019 from rfl,
    yearLoop_step (hreg 2019 (by decide) (by decide)) (by decide) (by decide),
    show (2019 : Int) + 1 = 2020 from rfl,
    yearLoop_step (hreg 2020 (by decide) (by decide)) (by decide) (by decide),
    show (2020 : Int) + 1 = 2021 from rfl,
    yearLoop_step (hreg 2021 (by decide) (by decide)) (by decide) (by decide),
    show (2021 : Int) + 1 = 2022 from rfl,
    yearLoop_step (hreg 2022 (by decide) (by decide)) (by decide) (by decide),
    show (2022 : Int) + 1 = 2023 from rfl,
    yearLoop_exit]
  rfl

theorem utc_regularYears : utc.RegularYears := fun _ _ _ => rfl

theorem brt_regularYears : brt.RegularYears := fun _ _ _ => rfl

theorem index0_cons (v : Num) (rest : List Num) : index0 (v :: rest) = v := by
  cases v <;> rfl

theorem ofValue_some (t : Int) : Date.ofValue (some t) = ⟨TimeClip t⟩ := rfl

/-- The extent the time-extent callback builds from the start of a year. -/
theorem watchedTimeExtent_jan1Time {tz : TimeZone} {yr : Int} (h : tz.Regular (localJan1 yr))
    (h0 : 2016 ≤ yr) (h1 : yr ≤ 2022) (rest : List Num) :
    watchedTimeExtent tz (some (jan1Time tz yr) :: rest) =
      { start := ⟨some (jan1Time tz yr)⟩, end_ := ⟨some (jan1Time tz (yr + 1))⟩ } := by
  have hb := TimeClip_of_bounds (jan1Time_bounds tz h0 (show yr ≤ 2023 by omega))
  have hb1 := TimeClip_of_bounds (jan1Time_bounds tz (show 2016 ≤ yr + 1 by omega)
    (show yr + 1 ≤ 2023 by omega))
  unfold watchedTimeExtent timeExtentLocals
  simp only [index0_cons, ofValue_some]
  rw [hb, getFullYear_jan1 h]
  simp only [Num.succ, Option.map_some']
  rw [setFullYear_jan1 h h0 h1]
  simp only [ofValue_some, hb1]

theorem watchedTimeExtent_jan1 {tz : TimeZone} {yr : Int} (h : tz.Regular (localJan1 yr))
    (h0 : 2016 ≤ yr) (h1 : yr ≤ 2022) (rest : List Num) :
    watchedTimeExtent tz (jan1 tz yr :: rest) =
      { start := ⟨jan1 tz yr⟩, end_ := ⟨jan1 tz (yr + 1)⟩ } := by
  rw [jan1_eq tz h0 (by omega), jan1_eq tz (by omega) (by omega)]
  exact watchedTimeExtent_jan1Time h h0 h1 rest

/-- C1: for each year 2017..2022, running the time-extent callback with
`values[0]` the timestamp of 1 January of that year (a value of the generated
option list) sets `view.timeExtent` to the extent from that timestamp to the
timestamp of 1 January of the following year.  The start is the instant of
local midnight of 1 January of the year and the end the instant of the local
time with the year one higher and the same month, date and time of day. -/
theorem timeExtent_of_year_option (tz : TimeZone) (hreg : tz.RegularYears) (yr : Int)
    (h0 : 2017 ≤ yr) (h1 : yr ≤ 2022) (n : Nat) (rest : List Num) (s : App) :
    jan1 tz yr ∈ (yearOptions tz (n + 7)).map LabelItem.value ∧
      (timeExtentWatcher tz (jan1 tz yr :: rest) s).view.timeExtent =
        some { start := ⟨jan1 tz yr⟩, end_ := ⟨jan1 tz (yr + 1)⟩ } ∧
      jan1 tz yr = some (UTC tz (localJan1 yr)) ∧
      jan1 tz (yr + 1) = some (UTC tz (localJan1 (yr + 1))) ∧
      LocalTime tz (UTC tz (localJan1 yr)) = localJan1 yr ∧
      YearFromTime (localJan1 yr) = yr ∧
      YearFromTime (localJan1 (yr + 1)) = yr + 1 ∧
      MonthFromTime (localJan1 (yr + 1)) = MonthFromTime (localJan1 yr) ∧
      DateFromTime (localJan1 (yr + 1)) = DateFromTime (localJan1 yr) ∧
      TimeWithinDay (localJan1 (yr + 1)) = TimeWithinDay (localJan1 yr) := by
  obtain ⟨a1, a2, a3, a4⟩ := localJan1_calendar yr
  obtain ⟨b1, b2, b3, b4⟩ := localJan1_calendar (yr + 1)
  refine ⟨?_, ?_, jan1_eq tz (by omega) (by omega), jan1_eq tz (by omega) (by omega),
    LocalTime_UTC (hreg yr h0 h1), a1, b1, by rw [a2, b2], by rw [a3, b3], by rw [a4, b4]⟩
  · unfold yearOptions
    rw [labelComponentForDates_eq hreg n, jan1_eq tz (by omega) (by omega)]
    have hy : yr = 2017 ∨ yr = 2018 ∨ yr = 2019 ∨ yr = 2020 ∨ yr = 2021 ∨ yr = 2022 := by omega
    rcases hy with h | h | h | h | h | h <;> subst h <;> simp [yearItem]
  · unfold timeExtentWatcher
    simp only
    rw [watchedTimeExtent_jan1 (hreg yr h0 h1) (by omega) h1]

/-- C1 at 2019 in UTC: the extent runs from 2019-01-01 to 2020-01-01. -/
theorem timeExtent_of_year_option_witness :
    jan1 utc 2019 ∈ (yearOptions utc (0 + 7)).map LabelItem.value ∧
      (timeExtentWatcher utc (jan1 utc 2019 :: []) demoApp).view.timeExtent =
        some { start := ⟨jan1 utc 2019⟩, end_ := ⟨jan1 utc (2019 + 1)⟩ } ∧
      jan1 utc 2019 = some (UTC utc (localJan1 2019)) ∧
      jan1 utc (2019 + 1) = some (UTC utc (localJan1 (2019 + 1))) ∧
      LocalTime utc (UTC utc (localJan1 2019)) = localJan1 2019 ∧
      YearFromTime (localJan1 2019) = 2019 ∧
      YearFromTime (localJan1 (2019 + 1)) = 2019 + 1 ∧
      MonthFromTime (localJan1 (2019 + 1)) = MonthFromTime (localJan1 2019) ∧
      DateFromTime (localJan1 (2019 + 1)) = DateFromTime (localJan1 2019) ∧
      TimeWithinDay (localJan1 (2019 + 1)) = TimeWithinDay (localJan1 2019) :=
  timeExtent_of_year_option utc utc_regularYears 2019 (by decide) (by decide) 0 [] demoApp

theorem setup_demoApp : setup utc 7 [⟨"None"⟩, ⟨"Trees"⟩] = .ok demoApp := rfl

/-- C2: with `n` as `values[0]` of the raster-function picker, the callback
sets `layer.rasterFunction` to the object whose only field `functionName` is
`n`, whatever array the callback is passed and whatever `n` is. -/
theorem rasterFunction_of_selection (n : String) (rest vals : List String) (s : App) :
    (rasterFunctionWatcher vals
        { s with rasterFunctionPicker := { s.rasterFunctionPicker with values := n :: rest } }
      ).layer.rasterFunction = some { functionName := some n } := rfl

/-- C3: run with at least seven units of fuel, the loop ends and returns
exactly the six items for 2017..2022 in this order, item `i` with the
timestamp of 1 January of `2017 + i` as value and the label
`Land cover in` followed by the year, and leaves the date object at 1 January
2023; the timestamps of 1 January of 2017..2023 are strictly increasing, so
the list has no duplicate and does not hold the one of 2023. -/
theorem yearOptions_exact (tz : TimeZone) (hreg : tz.RegularYears) (fuel : Nat)
    (hfuel : 7 ≤ fuel) :
    labelComponentForDates tz fuel =
        some ([⟨jan1 tz 2017, "Land cover in 2017"⟩, ⟨jan1 tz 2018, "Land cover in 2018"⟩,
               ⟨jan1 tz 2019, "Land cover in 2019"⟩, ⟨jan1 tz 2020, "Land cover in 2020"⟩,
               ⟨jan1 tz 2021, "Land cover in 2021"⟩, ⟨jan1 tz 2022, "Land cover in 2022"⟩],
              ⟨jan1 tz 2023⟩) ∧
      (∀ a b : Int, 2017 ≤ a → a < b → b ≤ 2023 →
        ∃ ta tb : Int, jan1 tz a = some ta ∧ jan1 tz b = some tb ∧ ta < tb) ∧
      jan1 tz 2023 ∉ [jan1 tz 2017, jan1 tz 2018, jan1 tz 2019, jan1 tz 2020, jan1 tz 2021,
        jan1 tz 2022] := by
  have hord : ∀ a b : Int, 2017 ≤ a → a < b → b ≤ 2023 →
      ∃ ta tb : Int, jan1 tz a = some ta ∧ jan1 tz b = some tb ∧ ta < tb := by
    intro a b ha hab hb
    exact ⟨jan1Time tz a, jan1Time tz b, jan1_eq tz (by omega) (by omega),
      jan1_eq tz (by omega) (by omega), jan1Time_lt tz hab⟩
  refine ⟨?_, hord, ?_⟩
  · obtain ⟨n, rfl⟩ : ∃ n, fuel = n + 7 := ⟨fuel - 7, by omega⟩
    rw [labelComponentForDates_eq hreg n]
    simp only [jan1_eq tz (show (2016 : Int) ≤ 2017 by decide) (by decide),
      jan1_eq tz (show (2016 : Int) ≤ 2018 by decide) (by decide),
      jan1_eq tz (show (2016 : Int) ≤ 2019 by decide) (by decide),
      jan1_eq tz (show (2016 : Int) ≤ 2020 by decide) (by decide),
      jan1_eq tz (show (2016 : Int) ≤ 2021 by decide) (by decide),
      jan1_eq tz (show (2016 : Int) ≤ 2022 by decide) (by decide),
      jan1_eq tz (show (2016 : Int) ≤ 2023 by decide) (by decide)]
    rfl
  · intro hmem
    simp only [List.mem_cons, List.mem_singleton, List.not_mem_nil, or_false] at hmem
    have key : ∀ a : Int, 2017 ≤ a → a < 2023 → jan1 tz 2023 ≠ jan1 tz a := by
      intro a ha hlt heq
      obtain ⟨ta, tb, h1, h2, h3⟩ := hord a 2023 ha hlt (le_refl _)
      rw [h1, h2] at heq
      have := Option.some.inj heq
      omega
    rcases hmem with h | h | h | h | h | h
    · exact key 2017 (by decide) (by decide) h
    · exact key 2018 (by decide) (by decide) h
    · exact key 2019 (by decide) (by decide) h
    · exact key 2020 (by decide) (by decide) h
    · exact key 2021 (by decide) (by decide) h
    · exact key 2022 (by decide) (by decide) h

/-- C3 in UTC with seven units of fuel. -/
theorem yearOptions_exact_witness :
    labelComponentForDates utc 7 =
        some ([⟨jan1 utc 2017, "Land cover in 2017"⟩, ⟨jan1 utc 2018, "Land cover in 2018"⟩,
               ⟨jan1 utc 2019, "Land cover in 2019"⟩, ⟨jan1 utc 2020, "Land cover in 2020"⟩,
               ⟨jan1 utc 2021, "Land cover in 2021"⟩, ⟨jan1 utc 2022, "Land cover in 2022"⟩],
              ⟨jan1 utc 2023⟩) ∧
      (∀ a b : Int, 2017 ≤ a → a < b → b ≤ 2023 →
        ∃ ta tb : Int, jan1 utc a = some ta ∧ jan1 utc b = some tb ∧ ta < tb) ∧
      jan1 utc 2023 ∉ [jan1 utc 2017, jan1 utc 2018, jan1 utc 2019, jan1 utc 2020,
        jan1 utc 2021, jan1 utc 2022] :=
  yearOptions_exact utc utc_regularYears 7 (by decide)

theorem comboboxItems_foldl (infos : List RasterFunctionInfo) (acc : List ComboboxItem) :
    infos.foldl (fun items rf => items ++ [{ value := rf.name, label := rf.name }]) acc =
      acc ++ infos.map fun rf => { value := rf.name, label := rf.name } := by
  induction infos generalizing acc with
  | nil => simp
  | cons rf rest ih => simp [List.foldl_cons, ih]

theorem comboboxItems_eq (infos : List RasterFunctionInfo) :
    comboboxItems infos = infos.map fun rf => { value := rf.name, label := rf.name } := by
  unfold comboboxItems
  rw [comboboxItems_foldl]
  rfl

/-- C5: with a first raster-function info `rf`, set-up succeeds; the
raster-function picker starts with `values = [rf.name]`, the name of its
first item, and the time picker with `values` holding the timestamp of
1 January 2017, the value of its first item, although the date object that
gave this timestamp stands at 1 January 2023 once the loop is over. -/
theorem initial_selection (tz : TimeZone) (hreg : tz.RegularYears) (fuel : Nat)
    (hfuel : 7 ≤ fuel) (rf : RasterFunctionInfo) (infos : List RasterFunctionInfo) :
    ∃ s : App, setup tz fuel (rf :: infos) = .ok s ∧
      s.rasterFunctionPicker.values = [rf.name] ∧
      s.rasterFunctionPicker.items.head? = some { value := rf.name, label := rf.name } ∧
      s.valuePickerTime.values = [jan1 tz 2017] ∧
      s.valuePickerTime.items.head?.map LabelItem.value = some (jan1 tz 2017) ∧
      s.startDate = ⟨jan1 tz 2023⟩ ∧ s.startDate ≠ ⟨jan1 tz 2017⟩ := by
  obtain ⟨n, rfl⟩ : ∃ n, fuel = n + 7 := ⟨fuel - 7, by omega⟩
  have h17 := jan1_eq tz (show (2016 : Int) ≤ 2017 by decide) (by decide)
  have h23 := jan1_eq tz (show (2016 : Int) ≤ 2023 by decide) (by decide)
  have hlt := jan1Time_lt tz (show (2017 : Int) < 2023 by decide)
  unfold setup
  rw [comboboxItems_eq, labelComponentForDates_eq hreg n, h17, h23]
  refine ⟨_, rfl, rfl, rfl, rfl, rfl, rfl, ?_⟩
  intro h
  have h2 := Option.some.inj (congrArg Date.value h)
  omega

/-- C5 in UTC with the raster functions `None` and `Trees`. -/
theorem initial_selection_witness :
    ∃ s : App, setup utc 7 (⟨"None"⟩ :: [⟨"Trees"⟩]) = .ok s ∧
      s.rasterFunctionPicker.values = [(⟨"None"⟩ : RasterFunctionInfo).name] ∧
      s.rasterFunctionPicker.items.head? = some
        { value := (⟨"None"⟩ : RasterFunctionInfo).name,
          label := (⟨"None"⟩ : RasterFunctionInfo).name } ∧
      s.valuePickerTime.values = [jan1 utc 2017] ∧
      s.valuePickerTime.items.head?.map LabelItem.value = some (jan1 utc 2017) ∧
      s.startDate = ⟨jan1 utc 2023⟩ ∧ s.startDate ≠ ⟨jan1 utc 2017⟩ :=
  initial_selection utc utc_regularYears 7 (by decide) ⟨"None"⟩ [⟨"Trees"⟩]

/-- C7: for every number `y`, two runs of the time-extent callback with
`values[0] = y` record two assignments to `view.timeExtent`, both of the same
extent, and the layer and the view after the second run are those after the
first. -/
theorem timeExtent_twice (tz : TimeZone) (y : Num) (rest : List Num) (s : App) :
    (timeExtentWatcher tz (y :: rest) (timeExtentWatcher tz (y :: rest) s)).updates =
        s.updates ++ [Update.timeExtent (watchedTimeExtent tz (y :: rest)),
                      Update.timeExtent (watchedTimeExtent tz (y :: rest))] ∧
      (timeExtentWatcher tz (y :: rest) s).updates =
        s.updates ++ [Update.timeExtent (watchedTimeExtent tz (y :: rest))] ∧
      (timeExtentWatcher tz (y :: rest) (timeExtentWatcher tz (y :: rest) s)).view =
        (timeExtentWatcher tz (y :: rest) s).view ∧
      (timeExtentWatcher tz (y :: rest) (timeExtentWatcher tz (y :: rest) s)).layer =
        (timeExtentWatcher tz (y :: rest) s).layer ∧
      (timeExtentWatcher tz (y :: rest) s).view.timeExtent =
        some (watchedTimeExtent tz (y :: rest)) := by
  refine ⟨?_, rfl, rfl, rfl, rfl⟩
  simp [timeExtentWatcher]

theorem ofValue_TimeClip (t : Int) : Date.ofValue (TimeClip t) = ⟨TimeClip t⟩ := by
  unfold Date.ofValue
  by_cases h : 8640000000000000 < |t|
  · simp [TimeClip, h]
  · simp [TimeClip, h]

/-- C8: for every time value `v`, the extent the callback assigns starts at
`v` itself and the picker's `values[0]` is still `v`, although the callback's
own local date object has been changed in place: after `setFullYear` it holds
the number the call returned, which is the end of the extent. -/
theorem timeExtent_start_unchanged (tz : TimeZone) (v : Int) (hv : IsTimeValue v)
    (rest : List Num) (s : App) (hs : s.valuePickerTime.values = some v :: rest) :
    (∃ e : Date, (timeExtentWatcher tz (some v :: rest) s).view.timeExtent =
        some { start := ⟨some v⟩, end_ := e } ∧
        e.value = (timeExtentLocals tz (some v :: rest)).2) ∧
      (timeExtentLocals tz (some v :: rest)).1 = ⟨(timeExtentLocals tz (some v :: rest)).2⟩ ∧
      index0 (timeExtentWatcher tz (some v :: rest) s).valuePickerTime.values = some v := by
  have hclip := TimeClip_of_bounds hv
  refine ⟨⟨Date.ofValue (timeExtentLocals tz (some v :: rest)).2, ?_, ?_⟩, rfl, ?_⟩
  · unfold timeExtentWatcher watchedTimeExtent
    simp only [index0_cons, ofValue_some, hclip]
  · unfold timeExtentLocals Date.setFullYear
    simp only [index0_cons, ofValue_some, hclip, Date.getFullYear, Num.succ, Option.map_some']
    exact congrArg Date.value (ofValue_TimeClip _)
  · show index0 s.valuePickerTime.values = some v
    rw [hs, index0_cons]

/-- C8 at 1 January 2017 in UTC, the initial selection. -/
theorem timeExtent_start_unchanged_witness :
    (∃ e : Date, (timeExtentWatcher utc (some 1483228800000 :: []) demoApp).view.timeExtent =
        some { start := ⟨some 1483228800000⟩, end_ := e } ∧
        e.value = (timeExtentLocals utc (some 1483228800000 :: [])).2) ∧
      (timeExtentLocals utc (some 1483228800000 :: [])).1 =
        ⟨(timeExtentLocals utc (some 1483228800000 :: [])).2⟩ ∧
      index0 (timeExtentWatcher utc (some 1483228800000 :: []) demoApp).valuePickerTime.values =
        some 1483228800000 :=
  timeExtent_start_unchanged utc 1483228800000 ⟨by decide, by decide⟩ [] demoApp rfl

theorem watcher_yearItem {tz : TimeZone} {yr : Int} (h : tz.Regular (localJan1 yr))
    (h0 : 2016 ≤ yr) (h1 : yr ≤ 2022) {yr1 : Int} (hyr : yr1 = yr + 1) (rest : List Num)
    (s : App) :
    (timeExtentWatcher tz ((yearItem tz yr).value :: rest) s).view.timeExtent =
      some { start := ⟨(yearItem tz yr).value⟩, end_ := ⟨some (jan1Time tz yr1)⟩ } := by
  subst hyr
  show some (watchedTimeExtent tz (some (jan1Time tz yr) :: rest)) = _
  rw [watchedTimeExtent_jan1Time h h0 h1]
  rfl

/-- C10: the generated list has six items; for each pair of consecutive
items the extent the callback derives from the first one's value ends at the
second one's value; and from the last item's value it ends at the timestamp
of 1 January 2023, which is no value of the list. -/
theorem extents_tile (tz : TimeZone) (hreg : tz.RegularYears) (n : Nat) :
    (yearOptions tz (n + 7)).length = 6 ∧
      (∀ i : Nat, i + 1 < 6 → ∃ o o1 : LabelItem,
        (yearOptions tz (n + 7))[i]? = some o ∧ (yearOptions tz (n + 7))[i + 1]? = some o1 ∧
        ∀ (rest : List Num) (s : App),
          (timeExtentWatcher tz (o.value :: rest) s).view.timeExtent =
            some { start := ⟨o.value⟩, end_ := ⟨o1.value⟩ }) ∧
      ∃ o : LabelItem, (yearOptions tz (n + 7)).getLast? = some o ∧
        (∀ (rest : List Num) (s : App),
          (timeExtentWatcher tz (o.value :: rest) s).view.timeExtent =
            some { start := ⟨o.value⟩, end_ := ⟨jan1 tz 2023⟩ }) ∧
        jan1 tz 2023 ∉ (yearOptions tz (n + 7)).map LabelItem.value := by
  have hopts : yearOptions tz (n + 7) = [yearItem tz 2017, yearItem tz 2018, yearItem tz 2019,
      yearItem tz 2020, yearItem tz 2021, yearItem tz 2022] := by
    unfold yearOptions
    rw [labelComponentForDates_eq hreg n]
  rw [hopts]
  refine ⟨rfl, ?_, yearItem tz 2022, rfl, ?_, ?_⟩
  · intro i hi
    have hcases : i = 0 ∨ i = 1 ∨ i = 2 ∨ i = 3 ∨ i = 4 := by omega
    rcases hcases with h | h | h | h | h <;> subst h
    · exact ⟨yearItem tz 2017, yearItem tz 2018, rfl, rfl,
        watcher_yearItem (hreg 2017 (by decide) (by decide)) (by decide) (by decide) rfl⟩
    · exact ⟨yearItem tz 2018, yearItem tz 2019, rfl, rfl,
        watcher_yearItem (hreg 2018 (by decide) (by decide)) (by decide) (by decide) rfl⟩
    · exact ⟨yearItem tz 2019, yearItem tz 2020, rfl, rfl,
        watcher_yearItem (hreg 2019 (by decide) (by decide)) (by decide) (by decide) rfl⟩
    · exact ⟨yearItem tz 2020, yearItem tz 2021, rfl, rfl,
        watcher_yearItem (hreg 2020 (by decide) (by decide)) (by decide) (by decide) rfl⟩
    · exact ⟨yearItem tz 2021, yearItem tz 2022, rfl, rfl,
        watcher_yearItem (hreg 2021 (by decide) (by decide)) (by decide) (by decide) rfl⟩
  · rw [jan1_eq tz (show (2016 : Int) ≤ 2023 by decide) (by decide)]
    exact watcher_yearItem (hreg 2022 (by decide) (by decide)) (by decide) (by decide) rfl
  · rw [jan1_eq tz (show (2016 : Int) ≤ 2023 by decide) (by decide)]
    intro hmem
    simp only [List.map_cons, List.map_nil, yearItem, List.mem_cons, List.mem_singleton,
      List.not_mem_nil, or_false, Option.some.injEq] at hmem
    have key : ∀ a : Int, a < 2023 → jan1Time tz 2023 ≠ jan1Time tz a := by
      intro a hlt heq
      have := jan1Time_lt tz hlt
      omega
    rcases hmem with h | h | h | h | h | h
    · exact key 2017 (by decide) h
    · exact key 2018 (by decide) h
    · exact key 2019 (by decide) h
    · exact key 2020 (by decide) h
    · exact key 2021 (by decide) h
    · exact key 2022 (by decide) h

/-- C10 in UTC with seven units of fuel. -/
theorem extents_tile_witness :
    (yearOptions utc (0 + 7)).length = 6 ∧
      (∀ i : Nat, i + 1 < 6 → ∃ o o1 : LabelItem,
        (yearOptions utc (0 + 7))[i]? = some o ∧ (yearOptions utc (0 + 7))[i + 1]? = some o1 ∧
        ∀ (rest : List Num) (s : App),
          (timeExtentWatcher utc (o.value :: rest) s).view.timeExtent =
            some { start := ⟨o.value⟩, end_ := ⟨o1.value⟩ }) ∧
      ∃ o : LabelItem, (yearOptions utc (0 + 7)).getLast? = some o ∧
        (∀ (rest : List Num) (s : App),
          (timeExtentWatcher utc (o.value :: rest) s).view.timeExtent =
            some { start := ⟨o.value⟩, end_ := ⟨jan1 utc 2023⟩ }) ∧
        jan1 utc 2023 ∉ (yearOptions utc (0 + 7)).map LabelItem.value :=
  extents_tile utc utc_regularYears 0

/-- C9 fails on the code: from the state after set-up, a raster-function
change (to `Trees`) leaves `view.timeExtent` unset although the selected year
2017 derives the extent 2017-01-01 to 2018-01-01, and a year change (to 2019)
leaves `layer.rasterFunction` unset although `None` is selected. -/
theorem raster_change_leaves_timeExtent_unset :
    setup utc 7 [⟨"None"⟩, ⟨"Trees"⟩] = .ok demoApp ∧
      (rasterFunctionWatcher ["Trees"]
          { demoApp with rasterFunctionPicker :=
              { demoApp.rasterFunctionPicker with values := ["Trees"] } }).view.timeExtent
        = none ∧
      watchedTimeExtent utc demoApp.valuePickerTime.values =
        { start := ⟨jan1 utc 2017⟩, end_ := ⟨jan1 utc 2018⟩ } ∧
      (timeExtentWatcher utc [jan1 utc 2019]
          { demoApp with valuePickerTime :=
              { demoApp.valuePickerTime with values := [jan1 utc 2019] } }).layer.rasterFunction
        = none ∧
      demoApp.rasterFunctionPicker.values.head? = some "None" := by
  refine ⟨rfl, rfl, ?_, rfl, rfl⟩
  decide

/-- C9 as amended: each callback applies its own derived config and leaves
the other property as it was.  The raster-function callback sets
`layer.rasterFunction` to the object naming the picker's `values[0]` and does
not touch the view; the time-extent callback sets `view.timeExtent` to the
extent derived from its `values` and does not touch the layer. -/
theorem each_watcher_applies_its_config (tz : TimeZone) (vals : List String)
    (tvals : List Num) (s : App) :
    (rasterFunctionWatcher vals s).layer.rasterFunction =
        some { functionName := s.rasterFunctionPicker.values.head? } ∧
      (rasterFunctionWatcher vals s).view = s.view ∧
      (rasterFunctionWatcher vals s).updates =
        s.updates ++ [Update.rasterFunction
          { functionName := s.rasterFunctionPicker.values.head? }] ∧
      (timeExtentWatcher tz tvals s).view.timeExtent = some (watchedTimeExtent tz tvals) ∧
      (timeExtentWatcher tz tvals s).layer = s.layer ∧
      (timeExtentWatcher tz tvals s).updates =
        s.updates ++ [Update.timeExtent (watchedTimeExtent tz tvals)] :=
  ⟨rfl, rfl, rfl, rfl, rfl, rfl⟩

/-- C4 fails on the code: in the state after set-up with the raster
functions `None` and `Trees`, the name `Water` is no item of the combobox and
the timestamps of 2016 and 2023 are no items of the label component, yet the
callbacks run with them assign `layer.rasterFunction` and `view.timeExtent`
and record the update. -/
theorem unlisted_values_are_applied :
    setup utc 7 [⟨"None"⟩, ⟨"Trees"⟩] = .ok demoApp ∧
      "Water" ∉ demoApp.rasterFunctionPicker.items.map ComboboxItem.value ∧
      (rasterFunctionWatcher ["Water"]
          { demoApp with rasterFunctionPicker :=
              { demoApp.rasterFunctionPicker with values := ["Water"] } }).layer.rasterFunction
        = some { functionName := some "Water" } ∧
      jan1 utc 2016 ∉ demoApp.valuePickerTime.items.map LabelItem.value ∧
      jan1 utc 2023 ∉ demoApp.valuePickerTime.items.map LabelItem.value ∧
      (timeExtentWatcher utc [jan1 utc 2016] demoApp).view.timeExtent =
        some { start := ⟨jan1 utc 2016⟩, end_ := ⟨jan1 utc 2017⟩ } ∧
      (timeExtentWatcher utc [jan1 utc 2023] demoApp).view.timeExtent =
        some { start := ⟨jan1 utc 2023⟩, end_ := ⟨jan1 utc 2024⟩ } ∧
      (timeExtentWatcher utc [jan1 utc 2016] demoApp).updates =
        [Update.timeExtent { start := ⟨jan1 utc 2016⟩, end_ := ⟨jan1 utc 2017⟩ }] := by
  refine ⟨rfl, by decide, rfl, by decide, by decide, by decide, by decide, by decide⟩

/-- C4 as amended: no value is rejected.  For every name `n` and every time
value `v`, in the option lists or not, the callback run with it assigns
`layer.rasterFunction = { functionName: n }`, respectively a
`view.timeExtent` that starts at `v`, and records exactly one update.  From
every state either callback leaves both pickers, items and values, as they
are; the raster-function callback leaves the view and the time-extent
callback the layer as they are.  With the timestamps of 2017 and 2022 the
extents are 2017 to 2018 and 2022 to 2023. -/
theorem no_selection_rejected (tz : TimeZone) (hreg : tz.RegularYears) (n : String)
    (rest vals : List String) (v : Int) (hv : IsTimeValue v) (trest : List Num) (s : App) :
    (rasterFunctionWatcher vals
        { s with rasterFunctionPicker := { s.rasterFunctionPicker with values := n :: rest } }
      ).layer.rasterFunction = some { functionName := some n } ∧
      (rasterFunctionWatcher vals
        { s with rasterFunctionPicker := { s.rasterFunctionPicker with values := n :: rest } }
      ).updates = s.updates ++ [Update.rasterFunction { functionName := some n }] ∧
      (rasterFunctionWatcher vals
        { s with rasterFunctionPicker := { s.rasterFunctionPicker with values := n :: rest } }
      ).rasterFunctionPicker.values = n :: rest ∧
      (rasterFunctionWatcher vals s).rasterFunctionPicker = s.rasterFunctionPicker ∧
      (rasterFunctionWatcher vals s).valuePickerTime = s.valuePickerTime ∧
      (rasterFunctionWatcher vals s).view = s.view ∧
      (∃ e : Date,
        (timeExtentWatcher tz (some v :: trest) s).view.timeExtent =
          some { start := ⟨some v⟩, end_ := e } ∧
        (timeExtentWatcher tz (some v :: trest) s).updates =
          s.updates ++ [Update.timeExtent { start := ⟨some v⟩, end_ := e }]) ∧
      (timeExtentWatcher tz (some v :: trest) s).valuePickerTime = s.valuePickerTime ∧
      (timeExtentWatcher tz (some v :: trest) s).rasterFunctionPicker = s.rasterFunctionPicker ∧
      (timeExtentWatcher tz (some v :: trest) s).layer = s.layer ∧
      (timeExtentWatcher tz (jan1 tz 2017 :: trest) s).view.timeExtent =
        some { start := ⟨jan1 tz 2017⟩, end_ := ⟨jan1 tz 2018⟩ } ∧
      (timeExtentWatcher tz (jan1 tz 2022 :: trest) s).view.timeExtent =
        some { start := ⟨jan1 tz 2022⟩, end_ := ⟨jan1 tz 2023⟩ } := by
  have hclip := TimeClip_of_bounds hv
  refine ⟨rfl, rfl, rfl, rfl, rfl, rfl,
    ⟨(watchedTimeExtent tz (some v :: trest)).end_, ?_, ?_⟩, rfl, rfl, rfl, ?_, ?_⟩
  · unfold timeExtentWatcher watchedTimeExtent
    simp only [index0_cons, ofValue_some, hclip]
  · unfold timeExtentWatcher watchedTimeExtent
    simp only [index0_cons, ofValue_some, hclip]
  · show some (watchedTimeExtent tz (jan1 tz 2017 :: trest)) = _
    rw [watchedTimeExtent_jan1 (hreg 2017 (by decide) (by decide)) (by decide) (by decide)]
    rfl
  · show some (watchedTimeExtent tz (jan1 tz 2022 :: trest)) = _
    rw [watchedTimeExtent_jan1 (hreg 2022 (by decide) (by decide)) (by decide) (by decide)]
    rfl

/-- C4 as amended, in UTC: the unlisted name `Water` and the timestamp of
1 January 2016 are applied. -/
theorem no_selection_rejected_witness :
    (rasterFunctionWatcher []
        { demoApp with rasterFunctionPicker :=
            { demoApp.rasterFunctionPicker with values := "Water" :: [] } }
      ).layer.rasterFunction = some { functionName := some "Water" } ∧
      (rasterFunctionWatcher []
        { demoApp with rasterFunctionPicker :=
            { demoApp.rasterFunctionPicker with values := "Water" :: [] } }
      ).updates = demoApp.updates ++ [Update.rasterFunction { functionName := some "Water" }] ∧
      (rasterFunctionWatcher []
        { demoApp with rasterFunctionPicker :=
            { demoApp.rasterFunctionPicker with values := "Water" :: [] } }
      ).rasterFunctionPicker.values = "Water" :: [] ∧
      (rasterFunctionWatcher [] demoApp).rasterFunctionPicker = demoApp.rasterFunctionPicker ∧
      (rasterFunctionWatcher [] demoApp).valuePickerTime = demoApp.valuePickerTime ∧
      (rasterFunctionWatcher [] demoApp).view = demoApp.view ∧
      (∃ e : Date,
        (timeExtentWatcher utc (some 1451606400000 :: []) demoApp).view.timeExtent =
          some { start := ⟨some 1451606400000⟩, end_ := e } ∧
        (timeExtentWatcher utc (some 1451606400000 :: []) demoApp).updates =
          demoApp.updates ++ [Update.timeExtent { start := ⟨some 1451606400000⟩, end_ := e }]) ∧
      (timeExtentWatcher utc (some 1451606400000 :: []) demoApp).valuePickerTime =
        demoApp.valuePickerTime ∧
      (timeExtentWatcher utc (some 1451606400000 :: []) demoApp).rasterFunctionPicker =
        demoApp.rasterFunctionPicker ∧
      (timeExtentWatcher utc (some 1451606400000 :: []) demoApp).layer = demoApp.layer ∧
      (timeExtentWatcher utc (jan1 utc 2017 :: []) demoApp).view.timeExtent =
        some { start := ⟨jan1 utc 2017⟩, end_ := ⟨jan1 utc 2018⟩ } ∧
      (timeExtentWatcher utc (jan1 utc 2022 :: []) demoApp).view.timeExtent =
        some { start := ⟨jan1 utc 2022⟩, end_ := ⟨jan1 utc 2023⟩ } :=
  no_selection_rejected utc utc_regularYears "Water" [] [] 1451606400000
    ⟨by decide, by decide⟩ [] demoApp

theorem marchFirstAfter_eq {t : Int} (hm : MonthFromTime t = 1) (hd : DateFromTime t = 29) :
    MakeDate (MakeDay (YearFromTime t + 1) 1 29) (TimeWithinDay t) = marchFirstAfter t := by
  have h365 := DaysInYear_after_leap (leapDay_day hm hd).2
  have e : MakeDay (YearFromTime t + 1) 1 29 = MakeDay (YearFromTime t + 1) 2 1 := by
    unfold MakeDay daysBeforeMonth
    norm_num
    rw [h365]
    norm_num
    omega
  unfold marchFirstAfter
  rw [e]

/-- C6 fails on the code: 29 February of the leap year 275760 at 00:00 UTC
is a time value, but one calendar year later is past the last time value
(13 September 275760), so the end of the extent is an invalid date. -/
theorem leapDay_end_invalid_at_range_limit :
    IsTimeValue 8639982979200000 ∧
      YearFromTime (LocalTime utc 8639982979200000) = 275760 ∧
      DaysInYear 275760 = 366 ∧
      MonthFromTime (LocalTime utc 8639982979200000) = 1 ∧
      DateFromTime (LocalTime utc 8639982979200000) = 29 ∧
      (timeExtentWatcher utc [some 8639982979200000] demoApp).view.timeExtent =
        some { start := ⟨some 8639982979200000⟩, end_ := ⟨none⟩ } := by
  refine ⟨⟨by decide, by decide⟩, by decide, by decide, by decide, by decide, by decide⟩

/-- C6 as amended: for every time value `v` whose local time is a
29 February, provided 1 March of the following year at the same local time of
day exists in the zone and is a time value, the extent the callback assigns
starts at `v` and ends at that 1 March: in local time the end has the
following year, month March, date 1 and the time of day of the start. -/
theorem leapDay_extent (tz : TimeZone) (v : Int) (hv : IsTimeValue v)
    (hm : MonthFromTime (LocalTime tz v) = 1) (hd : DateFromTime (LocalTime tz v) = 29)
    (hend : IsTimeValue (UTC tz (marchFirstAfter (LocalTime tz v))))
    (hreg : tz.Regular (marchFirstAfter (LocalTime tz v))) (rest : List Num) (s : App) :
    (timeExtentWatcher tz (some v :: rest) s).view.timeExtent =
        some { start := ⟨some v⟩,
               end_ := ⟨some (UTC tz (marchFirstAfter (LocalTime tz v)))⟩ } ∧
      YearFromTime (LocalTime tz (UTC tz (marchFirstAfter (LocalTime tz v)))) =
        YearFromTime (LocalTime tz v) + 1 ∧
      MonthFromTime (LocalTime tz (UTC tz (marchFirstAfter (LocalTime tz v)))) = 2 ∧
      DateFromTime (LocalTime tz (UTC tz (marchFirstAfter (LocalTime tz v)))) = 1 ∧
      TimeWithinDay (LocalTime tz (UTC tz (marchFirstAfter (LocalTime tz v)))) =
        TimeWithinDay (LocalTime tz v) := by
  have hclip := TimeClip_of_bounds hv
  have hclip1 := TimeClip_of_bounds hend
  have hnext := leapDay_next hm hd
  rw [marchFirstAfter_eq hm hd] at hnext
  rw [LocalTime_UTC hreg]
  refine ⟨?_, hnext⟩
  show some (watchedTimeExtent tz (some v :: rest)) = _
  unfold watchedTimeExtent timeExtentLocals Date.setFullYear
  simp only [index0_cons, ofValue_some, hclip, Date.getFullYear, Num.succ, Option.map_some']
  rw [hm, hd, marchFirstAfter_eq hm hd, hclip1]
  simp only [ofValue_some, hclip1]

/-- C6 as amended, at 29 February 2020 12:00 UTC: the extent ends on
1 March 2021 12:00 UTC. -/
theorem leapDay_extent_witness :
    (timeExtentWatcher utc (some 1582977600000 :: []) demoApp).view.timeExtent =
        some { start := ⟨some 1582977600000⟩,
               end_ := ⟨some (UTC utc (marchFirstAfter (LocalTime utc 1582977600000)))⟩ } ∧
      YearFromTime (LocalTime utc (UTC utc (marchFirstAfter (LocalTime utc 1582977600000)))) =
        YearFromTime (LocalTime utc 1582977600000) + 1 ∧
      MonthFromTime (LocalTime utc (UTC utc (marchFirstAfter (LocalTime utc 1582977600000))))
        = 2 ∧
      DateFromTime (LocalTime utc (UTC utc (marchFirstAfter (LocalTime utc 1582977600000))))
        = 1 ∧
      TimeWithinDay (LocalTime utc (UTC utc (marchFirstAfter (LocalTime utc 1582977600000)))) =
        TimeWithinDay (LocalTime utc 1582977600000) :=
  leapDay_extent utc 1582977600000 ⟨by decide, by decide⟩ (by decide) (by decide)
    ⟨by decide, by decide⟩ rfl [] demoApp

end LandCover
